import Mathlib

/-!
Shallow embedding of the p2p socket worker of the Gamecoin repository
(src/unnamed/part_000): the connection-admission and message-validation
gatekeeper.  JavaScript runtime values are modelled by `JVal`, property
access and `Object.keys` by `jsProp`/`objKeys` (with `Except Unit _`
capturing a thrown `TypeError`), and the worker's three entry points
`handlePayload` (ws "message" listener), `handleHandshake` and
`handleEmit` by the functions of the same names below.  Coordinator
round trips (`sendToMasterAsync`) are modelled by passing the response
of each call — `Except.error ()` standing for a rejected RPC — as an
input, together with the list of call names actually issued.
-/

namespace Gamecoin

/-- JSON/JavaScript values as produced by `JSON.parse` and carried in
coordinator responses.  Numbers are modelled as integers (every numeric
value the worker inspects — `cid`, `port`, `height`, timestamps — is
integral; no claim depends on non-integral arithmetic). -/
inductive JVal where
  | null
  | bool (b : Bool)
  | num (n : Int)
  | str (s : String)
  | arr (elems : List JVal)
  | obj (fields : List (String × JVal))

/-- JavaScript `typeof v` for a defined value (`typeof null` is `"object"`,
as is `typeof` of an array). -/
def JVal.typeof : JVal → String
  | .null => "object"
  | .bool _ => "boolean"
  | .num _ => "number"
  | .str _ => "string"
  | .arr _ => "object"
  | .obj _ => "object"

/-- `typeof` lifted to possibly-undefined values (`none` = `undefined`). -/
def typeofOpt : Option JVal → String
  | none => "undefined"
  | some v => v.typeof

/-- JavaScript truthiness of a defined value. -/
def JVal.truthy : JVal → Bool
  | .null => false
  | .bool b => b
  | .num n => n != 0
  | .str s => s != ""
  | .arr _ => true
  | .obj _ => true

/-- Truthiness with `undefined` (= `none`) falsy. -/
def truthyOpt : Option JVal → Bool
  | none => false
  | some v => v.truthy

/-- Own-property lookup in the field list of a parsed JSON object.
`JSON.parse` yields objects with distinct keys, so the first match is
the binding. -/
def lookupField : List (String × JVal) → String → Option JVal
  | [], _ => none
  | (k, v) :: rest, key => if k = key then some v else lookupField rest key

/-- JavaScript property access `v.k`: throws a `TypeError` on `null`
(`Except.error`), yields the field on objects, and `undefined` (`none`)
on primitives and arrays (none of the property names the worker reads —
`event`, `data`, `cid`, `headers`, … — is a built-in of those). -/
def jsProp : JVal → String → Except Unit (Option JVal)
  | .null, _ => .error ()
  | .obj fs, k => .ok (lookupField fs k)
  | _, _ => .ok none

/-- Property access on a possibly-undefined value: `undefined.k` throws. -/
def jsPropOpt : Option JVal → String → Except Unit (Option JVal)
  | none, _ => .error ()
  | some v, k => jsProp v k

/-- JavaScript `Object.keys`: throws on `null`, lists the keys of an
object, the index strings of an array or string, and is empty on the
remaining primitives. -/
def objKeys : JVal → Except Unit (List String)
  | .null => .error ()
  | .obj fs => .ok (fs.map Prod.fst)
  | .arr xs => .ok ((List.range xs.length).map toString)
  | .str s => .ok ((List.range s.length).map toString)
  | _ => .ok []

/-- `Object.keys` of a possibly-undefined value (`Object.keys(undefined)`
throws). -/
def objKeysOpt : Option JVal → Except Unit (List String)
  | none => .error ()
  | some v => objKeys v

/-- Strict equality `o === s` of a possibly-undefined value against a
string literal. -/
def optIsStr (o : Option JVal) (s : String) : Bool :=
  match o with
  | some (.str t) => t == s
  | _ => false

/-- `handlers.includes(v)` for the worker's handler list (an array of
strings, compared with strict equality). -/
def handlersInclude (handlers : List String) (o : Option JVal) : Bool :=
  match o with
  | some (.str s) => handlers.contains s
  | _ => false

/-- Character-level worker for `splitDot`, accumulating the current
segment in reverse. -/
def splitDotAux : List Char → List Char → List (List Char)
  | [], acc => [acc.reverse]
  | c :: rest, acc =>
    if c = '.' then acc.reverse :: splitDotAux rest []
    else splitDotAux rest (c :: acc)

/-- JavaScript `s.split(".")`: splits at every dot, keeping empty
segments (`"a..b"` → `["a", "", "b"]`, `""` → `[""]`). -/
def splitDot (s : String) : List String :=
  (splitDotAux s.data []).map fun cs => String.mk cs

/-- Schema documents (the entries of `requestSchemas`, loaded from
`../schemas`, which is outside the embedded file); their JSON content is
irrelevant here, only their presence and the verdict of `ajv.validate`. -/
abbrev Schema := JVal

/-- `requestSchemas`: version → handler → schema document. -/
abbrev SchemaTable := List (String × List (String × Schema))

/-- `ajv.validate(schema, data)`: a boolean verdict, or a thrown
exception (`Except.error`). -/
abbrev Validator := Schema → JVal → Except Unit Bool

/-- `requestSchemas[version][handler]`: indexing an absent version gives
`undefined`, and indexing `undefined` with `[handler]` throws. -/
def schemaLookup (schemas : SchemaTable) (version handler : String) :
    Except Unit (Option Schema) :=
  match schemas.lookup version with
  | none => .error ()
  | some hs => .ok (hs.lookup handler)

/-! ## hasAdditionalProperties (src/unnamed/part_000 lines 102-146) -/

/-- `object.event` followed by `.split(".")`: throws unless `event` is a
string. -/
def eventString (o : JVal) : Except Unit String :=
  match jsProp o "event" with
  | .error e => .error e
  | .ok (some (.str s)) => .ok s
  | .ok _ => .error ()

/-- Lines 107-114: for a non-control event, the dot-segment count of
`event` must be 3 and `object.data`'s own keys must lie in
`{data, headers}`. -/
def structBad (o : JVal) (s : String) (ev : List String) : Except Unit Bool :=
  if s != "#handshake" && s != "#disconnect" then
    if ev.length != 3 then .ok true
    else
      match jsProp o "data" with
      | .error e => .error e
      | .ok dOpt =>
        match objKeysOpt dOpt with
        | .error e => .error e
        | .ok dks =>
          .ok (((dks.filter fun k => k != "data" && k != "headers").length != 0 : Bool))
  else .ok false

/-- Lines 115-126: when `object.data.data` is truthy, look up
`requestSchemas[version][handler]` (which can throw) and, inside an
inner try/catch that swallows `ajv` exceptions, reject when a schema
exists and `ajv.validate` returns false. -/
def dataDataBad (schemas : SchemaTable) (validate : Validator) (o : JVal)
    (ev : List String) : Except Unit Bool :=
  match jsProp o "data" with
  | .error e => .error e
  | .ok dOpt =>
    match jsPropOpt dOpt "data" with
    | .error e => .error e
    | .ok ddOpt =>
      if truthyOpt ddOpt then
        match schemaLookup schemas (ev.getD 1 "undefined") (ev.getD 2 "undefined") with
        | .error e => .error e
        | .ok (some sc) =>
          match validate sc (ddOpt.getD .null) with
          | .ok b => .ok (!b)
          | .error _ => .ok false
        | .ok none => .ok false
      else .ok false

/-- Lines 136-139: the four truthiness-guarded type checks on
`object.data.headers` (in source order: version, port, Content-Type,
height).  Note each check fires only when the value is *truthy*. -/
def headerTypeBad (h : JVal) : Except Unit Bool :=
  match jsProp h "version" with
  | .error e => .error e
  | .ok hv =>
    match jsProp h "port" with
    | .error e => .error e
    | .ok hp =>
      match jsProp h "Content-Type" with
      | .error e => .error e
      | .ok hc =>
        match jsProp h "height" with
        | .error e => .error e
        | .ok hh =>
          .ok ((truthyOpt hv && typeofOpt hv != "string") ||
               (truthyOpt hp && typeofOpt hp != "number") ||
               (truthyOpt hc && typeofOpt hc != "string") ||
               (truthyOpt hh && typeofOpt hh != "number"))

/-- Lines 128-143: keys of `object.data.headers` restricted to
`{version, port, height, Content-Type}`, then the type checks. -/
def headersBad (h : JVal) : Except Unit Bool :=
  match objKeys h with
  | .error e => .error e
  | .ok ks =>
    if ((ks.filter fun k =>
          k != "version" && k != "port" && k != "height" && k != "Content-Type").length != 0 : Bool)
    then .ok true
    else headerTypeBad h

/-- Lines 127-144: the `object.data.headers` stage of
`hasAdditionalProperties` (re-accessing `object.data`, which can throw). -/
def headersPartBad (o : JVal) : Except Unit Bool :=
  match jsProp o "data" with
  | .error e => .error e
  | .ok dOpt =>
    match jsPropOpt dOpt "headers" with
    | .error e => .error e
    | .ok hOpt =>
      if truthyOpt hOpt then headersBad (hOpt.getD .null) else .ok false

/-- `hasAdditionalProperties` (lines 102-146): true means the frame is to
be rejected; `Except.error` is an exception thrown out of the method
(caught by the caller's try/catch in `handlePayload`). -/
def hasAdditionalProperties (schemas : SchemaTable) (validate : Validator)
    (object : JVal) : Except Unit Bool :=
  match objKeys object with
  | .error e => .error e
  | .ok ks =>
    if ((ks.filter fun k => k != "event" && k != "data" && k != "cid").length != 0 : Bool)
    then .ok true
    else
      match eventString object with
      | .error e => .error e
      | .ok s =>
        match structBad object s (splitDot s) with
        | .error e => .error e
        | .ok true => .ok true
        | .ok false =>
          match dataDataBad schemas validate object (splitDot s) with
          | .error e => .error e
          | .ok true => .ok true
          | .ok false => headersPartBad object

/-! ## handlePayload's ws "message" listener (lines 62-99) -/

/-- Per-connection flags the listener keeps on the raw ws object
(`ws._disconnected`, `ws._lastPingTime`, `ws._handshake`); all are
`undefined` (falsy / absent) on a fresh connection.  `lastPingTime` is
kept in milliseconds; the source stores `getTime() / 1000` seconds and
compares the difference against 1 second, which the millisecond
comparison against 1000 mirrors. -/
structure ConnState where
  disconnected : Bool := false
  lastPingTime : Option Int := none
  handshake : Bool := false
deriving DecidableEq

/-- `ipLastError`: remote IP → `Date.now()` of the last violation
(milliseconds). -/
abbrev IpMap := String → Option Int

/-- `setErrorForIpAndTerminate` (lines 148-151): record the violation
instant for the IP (the socket termination itself is reported by the
callers' boolean below). -/
def setErrorForIpAndTerminate (m : IpMap) (ip : String) (now : Int) : IpMap :=
  fun i => if i = ip then some now else m i

/-- The hourly `setInterval(() => (this.ipLastError = {}), ...)` purge
(line 26). -/
def purgeIpLastError (_m : IpMap) : IpMap := fun _ => none

/-- Collapse the caller-side try/catch of `handlePayload` (lines 76-97):
an exception thrown while classifying a parsed frame is caught and
treated as a violation, so the frame trips `setErrorForIpAndTerminate`
exactly when the classification is `error` or `ok true`. -/
def violB : Except Unit Bool → Bool
  | .ok b => b
  | .error _ => true

/-- The invalid-frame condition of lines 85-92, left-to-right with
JavaScript short-circuiting; `Except.error` is an exception escaping the
condition (thrown by `hasAdditionalProperties`), caught by the
surrounding try.  Note the `cid` clause is conjoined with
`parsed.event === "#disconnect"`, which is unreachable here because the
`"#disconnect"` case was peeled off by the enclosing if/else chain. -/
def invalidFrame (schemas : SchemaTable) (validate : Validator)
    (handlers : List String) (parsed : JVal) : Except Unit Bool :=
  match jsProp parsed "event" with
  | .error e => .error e
  | .ok evOpt =>
    if typeofOpt evOpt != "string" then .ok true
    else
      match jsProp parsed "data" with
      | .error e => .error e
      | .ok dOpt =>
        if typeofOpt dOpt != "object" then .ok true
        else
          match hasAdditionalProperties schemas validate parsed with
          | .error e => .error e
          | .ok true => .ok true
          | .ok false =>
            match jsProp parsed "cid" with
            | .error e => .error e
            | .ok cidOpt =>
              if typeofOpt cidOpt != "number" &&
                 (optIsStr evOpt "#disconnect" && typeofOpt cidOpt != "undefined")
              then .ok true
              else .ok (!(handlersInclude handlers evOpt))

/-- One invocation of the ws "message" listener installed by
`handlePayload` (lines 62-99).  `parse` is `JSON.parse`
(`Except.error` = `SyntaxError`), `nowMs` the current clock in
milliseconds.  Returns the updated connection flags and whether
`setErrorForIpAndTerminate` fired (violation recorded, socket
terminated). -/
def onMessage (parse : String → Except Unit JVal) (schemas : SchemaTable)
    (validate : Validator) (handlers : List String) (st : ConnState)
    (nowMs : Int) (message : String) : ConnState × Bool :=
  if st.disconnected then (st, true)
  else if message == "#2" then
    let fast : Bool := match st.lastPingTime with
      | some t => t != 0 && decide (nowMs - t < 1000)
      | none => false
    ({ st with lastPingTime := some nowMs }, fast)
  else if message.length < 10 then (st, true)
  else
    match parse message with
    | .error _ => (st, true)
    | .ok parsed =>
      match jsProp parsed "event" with
      | .error _ => (st, true)
      | .ok evOpt =>
        if optIsStr evOpt "#disconnect" then
          ({ st with disconnected := true }, false)
        else if optIsStr evOpt "#handshake" then
          ({ st with handshake := true }, st.handshake)
        else (st, violB (invalidFrame schemas validate handlers parsed))

/-- A message step together with its effect on `ipLastError`: when the
listener trips `setErrorForIpAndTerminate`, the violation instant is
recorded for the connection's IP. -/
def processMessage (parse : String → Except Unit JVal) (schemas : SchemaTable)
    (validate : Validator) (handlers : List String) (st : ConnState)
    (m : IpMap) (ip : String) (nowMs : Int) (message : String) :
    ConnState × IpMap × Bool :=
  let r := onMessage parse schemas validate handlers st nowMs message
  if r.2 then (r.1, setErrorForIpAndTerminate m ip nowMs, true)
  else (r.1, m, false)

/-! ## handleHandshake (lines 166-196) -/

/-- Destructure a coordinator response: `const { data } = await r` — a
rejected RPC re-throws at the `await`, and destructuring `null` throws. -/
def respData (r : Except Unit JVal) : Except Unit (Option JVal) :=
  match r with
  | .error e => .error e
  | .ok v => jsProp v "data"

/-- `data.blocked` of the `isBlockedByRateLimit` response. -/
def blockedField (r : Except Unit JVal) : Except Unit (Option JVal) :=
  match respData r with
  | .error e => .error e
  | .ok d => jsPropOpt d "blocked"

/-- Lines 168: the admission penalty test
`this.ipLastError[ip] && this.ipLastError[ip] > Date.now() - MINUTE_IN_MILLISECONDS`
(with the truthiness guard on the recorded instant). -/
def penaltyCheck (m : IpMap) (ip : String) (now : Int) : Bool :=
  match m ip with
  | some t => t != 0 && decide (t > now - 60000)
  | none => false

/-- The `/24` network of a dotted-quad IP, as computed by
`cidr(ip + "/24")` of the `ip` package; non-dotted-quad inputs are left
alone (the library raises there, which no claim exercises). -/
def subnet24 (ip : String) : String :=
  match splitDot ip with
  | [a, b, c, _d] => a ++ "." ++ b ++ "." ++ c ++ ".0"
  | _ => ip

/-- Inputs of one `handleHandshake` run.  `clients` holds the remote
addresses of `{...this.scServer.clients, ...this.scServer.pendingClients}`
— the connections already established or pending when the middleware
runs (the ws handshake middleware fires before the incoming socket is
registered in either set, matching spec §4.3's "already-established and
currently-pending connections").  `rlResp` is the settled result of the
`p2p.internal.isBlockedByRateLimit` round trip. -/
structure HsInput where
  ip : String
  now : Int
  ipLastError : IpMap
  blacklist : Option (List String)
  maxSameSubnetPeers : Int
  clients : List String
  rlResp : Except Unit JVal

/-- How a `handleHandshake` run ends: the raw socket destroyed, the
middleware passed (`next()`), or an exception escaping the (try-less)
async method as an unhandled rejection — in which case the socket is
neither destroyed nor passed on. -/
inductive HsOutcome where
  | destroyed
  | nextCalled
  | uncaught
deriving DecidableEq

/-- Whether a handshake outcome closes the raw transport connection. -/
def HsOutcome.closesConn : HsOutcome → Bool
  | .destroyed => true
  | _ => false

/-- `handleHandshake` (lines 166-196), returning the outcome and the
names of the coordinator calls issued. -/
def handleHandshake (inp : HsInput) : HsOutcome × List String :=
  if penaltyCheck inp.ipLastError inp.ip inp.now then (.destroyed, [])
  else
    let calls := ["p2p.internal.isBlockedByRateLimit"]
    match blockedField inp.rlResp with
    | .error _ => (.uncaught, calls)
    | .ok blockedOpt =>
      let isBlacklisted : Bool := (inp.blacklist.getD []).contains inp.ip
      if truthyOpt blockedOpt || isBlacklisted then (.destroyed, calls)
      else
        let cidrRemoteAddress := subnet24 inp.ip
        let sameSubnetSockets :=
          inp.clients.filter fun c => subnet24 c == cidrRemoteAddress
        if (sameSubnetSockets.length : Int) > inp.maxSameSubnetPeers then
          (.destroyed, calls)
        else (.nextCalled, calls)

/-! ## handleEmit (lines 198-290) -/

/-- `data.exceededLimitOnEndpoint` of the `getRateLimitStatus` response. -/
def rlExceededField (r : Except Unit JVal) : Except Unit (Option JVal) :=
  match respData r with
  | .error e => .error e
  | .ok d => jsPropOpt d "exceededLimitOnEndpoint"

/-- `data.ready` of the `isAppReady` response. -/
def readyField (r : Except Unit JVal) : Except Unit (Option JVal) :=
  match respData r with
  | .error e => .error e
  | .ok d => jsPropOpt d "ready"

/-- `data.authorized` of the `isForgerAuthorized` response. -/
def authorizedField (r : Except Unit JVal) : Except Unit (Option JVal) :=
  match respData r with
  | .error e => .error e
  | .ok d => jsPropOpt d "authorized"

/-- `data.isPeerOrForger` of the `isPeerOrForger` response. -/
def peerOrForgerField (r : Except Unit JVal) : Except Unit (Option JVal) :=
  match respData r with
  | .error e => .error e
  | .ok d => jsPropOpt d "isPeerOrForger"

/-- Inputs of one `handleEmit` run: the emitted event name, `req.data`
(possibly `undefined`), the caller's IP, the settled results of the four
request/response coordinator calls the stage can make, the settled
result of the fire-and-forget `acceptNewPeer` call, and
`requestSchemas`. -/
structure EmitInput where
  event : String
  reqData : Option JVal
  ip : String
  rlResp : Except Unit JVal
  readyResp : Except Unit JVal
  forgerResp : Except Unit JVal
  peerResp : Except Unit JVal
  acceptResp : Except Unit Unit
  schemas : SchemaTable

/-- How a `handleEmit` run ends. -/
inductive EmitOutcome where
  /-- `req.socket.terminate()` on a failed check, then return. -/
  | terminated
  /-- an exception reached the catch handler: logged via `this.log`,
  then `req.socket.terminate()`. -/
  | caughtTerminated
  /-- `next(new Error("App is not ready."))`: a structured error goes
  back to the caller and the connection stays open. -/
  | notReadyError
  /-- `next()`: the call proceeds to dispatch. -/
  | nextOk
  /-- an exception escaped `handleEmit` (thrown before the try block):
  an unhandled rejection; neither `terminate` nor `next` runs. -/
  | uncaught
deriving DecidableEq

/-- Whether an emit outcome closes the connection. -/
def EmitOutcome.closesConn : EmitOutcome → Bool
  | .terminated => true
  | .caughtTerminated => true
  | _ => false

/-- Whether an emit outcome sends a structured error response to the
caller. -/
def EmitOutcome.respondsError : EmitOutcome → Bool
  | .notReadyError => true
  | _ => false

/-- Line 220: `typeof req.data !== "object" || typeof req.data.data !==
"object" || typeof req.data.headers !== "object"` — note the property
accesses throw when `req.data` is `null`, and this line sits *before*
the try block. -/
def badFormat (reqData : Option JVal) : Except Unit Bool :=
  if typeofOpt reqData != "object" then .ok true
  else
    match jsPropOpt reqData "data" with
    | .error e => .error e
    | .ok dd =>
      if typeofOpt dd != "object" then .ok true
      else
        match jsPropOpt reqData "headers" with
        | .error e => .error e
        | .ok dh =>
          .ok (typeofOpt dh != "object")

/-- Line 281: `req.data.headers.remoteAddress = req.socket.remoteAddress`
followed by `next()` — assigning a property of `null`/`undefined` throws
(caught by the enclosing try); on an object or array the assignment
succeeds.  (After `badFormat` only `null`, arrays and objects reach this
point.) -/
def finalizeEmit (inp : EmitInput) (calls : List String) :
    EmitOutcome × List String :=
  match jsPropOpt inp.reqData "headers" with
  | .error _ => (.caughtTerminated, calls)
  | .ok hOpt =>
    match hOpt with
    | some JVal.null => (.caughtTerminated, calls)
    | some _ => (.nextOk, calls)
    | none => (.caughtTerminated, calls)

/-- Lines 267-272: fire the asynchronous `acceptNewPeer` notification;
its rejection is consumed by `.catch` (logged only) and never influences
the outcome, so `inp.acceptResp` is deliberately not inspected. -/
def acceptAndFinalize (inp : EmitInput) (calls : List String) :
    EmitOutcome × List String :=
  finalizeEmit inp (calls ++ ["p2p.internal.acceptNewPeer"])

/-- The try block of `handleEmit` (lines 225-287): every exception inside
— a coordinator rejection, an ill-shaped response, a schema-table miss,
an `ajv` throw, the headers assignment on `null` — lands in the catch
handler, which logs and terminates. -/
def emitTry (validate : Validator) (inp : EmitInput) :
    EmitOutcome × List String :=
  let parts := splitDot inp.event
  if parts.getD 0 "undefined" != "p2p" then (.terminated, [])
  else
    let calls := ["p2p.utils.isAppReady"]
    match readyField inp.readyResp with
    | .error _ => (.caughtTerminated, calls)
    | .ok readyOpt =>
      if !(truthyOpt readyOpt) then (.notReadyError, calls)
      else
        if parts.getD 1 "undefined" == "internal" then
          let calls := calls ++ ["p2p.utils.isForgerAuthorized"]
          match authorizedField inp.forgerResp with
          | .error _ => (.caughtTerminated, calls)
          | .ok authOpt =>
            if !(truthyOpt authOpt) then (.terminated, calls)
            else finalizeEmit inp calls
        else if parts.getD 1 "undefined" == "peer" then
          let handler := parts.getD 2 "undefined"
          match schemaLookup inp.schemas "peer" handler with
          | .error _ => (.caughtTerminated, calls)
          | .ok requestSchema =>
            if handler == "postTransactions" || handler == "postBlock" then
              let calls := calls ++ ["p2p.internal.isPeerOrForger"]
              match peerOrForgerField inp.peerResp with
              | .error _ => (.caughtTerminated, calls)
              | .ok pofOpt =>
                if !(truthyOpt pofOpt) then (.terminated, calls)
                else acceptAndFinalize inp calls
            else
              match requestSchema with
              | some sc =>
                match (match jsPropOpt inp.reqData "data" with
                       | .error e => (.error e : Except Unit Bool)
                       | .ok dd => validate sc (dd.getD .null)) with
                | .error _ => (.caughtTerminated, calls)
                | .ok valid =>
                  if !valid then (.terminated, calls)
                  else acceptAndFinalize inp calls
              | none => acceptAndFinalize inp calls
        else (.terminated, calls)

/-- `handleEmit` (lines 198-290), returning the outcome and the names of
the coordinator calls issued.  The length check, the
`getRateLimitStatus` round trip and the basic-format re-check run
*before* the try block, so an exception there escapes the method. -/
def handleEmit (validate : Validator) (inp : EmitInput) :
    EmitOutcome × List String :=
  if inp.event.length > 128 then (.terminated, [])
  else
    let calls := ["p2p.internal.getRateLimitStatus"]
    match rlExceededField inp.rlResp with
    | .error _ => (.uncaught, calls)
    | .ok exOpt =>
      if truthyOpt exOpt then (.terminated, calls)
      else
        match badFormat inp.reqData with
        | .error _ => (.uncaught, calls)
        | .ok true => (.terminated, calls)
        | .ok false =>
          let r := emitTry validate inp
          (r.1, calls ++ r.2)

/-! ## Spec-side predicates (for refinement comparison) -/

/-- The headers acceptance condition exactly as the specification words
it: every key of `data.headers` is one of `version`, `port`, `height`,
`Content-Type`, and every present key has its stated primitive type.
(This is the spec's predicate, to be compared against the code's
`headersBad`.) -/
def claimHeadersOk (h : JVal) : Bool :=
  match h with
  | .obj fs =>
    fs.all fun kv =>
      (kv.1 == "version" && (kv.2.typeof == "string")) ||
      (kv.1 == "port" && (kv.2.typeof == "number")) ||
      (kv.1 == "height" && (kv.2.typeof == "number")) ||
      (kv.1 == "Content-Type" && (kv.2.typeof == "string"))
  | _ => false

/-- "if the value is truthy it has type `t`" — the guard the code
actually applies to each header value. -/
def typedIfTruthy (o : Option JVal) (t : String) : Bool :=
  !(truthyOpt o) || (typeofOpt o == t)

/-- The headers acceptance condition as the code enforces it: every key
among the four allowed ones, and each of the four values well-typed
*whenever it is truthy* (falsy values of the wrong type — `0`, `false`,
`""`, `null` — pass). -/
def amendedHeadersOk (h : JVal) : Bool :=
  match h with
  | .obj fs =>
    (fs.all fun kv =>
      kv.1 == "version" || kv.1 == "port" || kv.1 == "height" || kv.1 == "Content-Type") &&
    typedIfTruthy (lookupField fs "version") "string" &&
    typedIfTruthy (lookupField fs "port") "number" &&
    typedIfTruthy (lookupField fs "Content-Type") "string" &&
    typedIfTruthy (lookupField fs "height") "number"
  | _ => false

/-! ## Concrete instances used in counterexamples and witnesses -/

/-- An `ajv.validate` stand-in that accepts everything. -/
def okVal : Validator := fun _ _ => .ok true

/-- A `requestSchemas` table with a `peer` version and no schemas. -/
def peerSchemas : SchemaTable := [("peer", [])]

/-- A handler list containing the single endpoint `p2p.peer.getPeers`. -/
def getPeersHandlers : List String := ["p2p.peer.getPeers"]

/-- A placeholder inbound text of length 10 (≥ the minimum frame
length); the `JSON.parse` oracle supplied alongside maps it to the
parsed frame under test. -/
def rawMsg : String := "0123456789"

/-- C2's frame: a valid structured call whose top-level `cid` is the
string `"x"`. -/
def cidFrame : JVal :=
  .obj [("event", .str "p2p.peer.getPeers"), ("data", .obj []), ("cid", .str "x")]

/-- C3's headers: key `version` present with the falsy non-string value
`0`. -/
def headersZero : JVal := .obj [("version", .num 0)]

/-- C3's frame: a structured call whose `data.headers` is
`headersZero`. -/
def falsyHeaderFrame : JVal :=
  .obj [("event", .str "p2p.peer.getPeers"), ("data", .obj [("headers", headersZero)])]

/-- The spec's example headers `{"version": "2.0.0", "port": 4002}`
(braces as in the wire JSON). -/
def exampleHeaders : JVal := .obj [("version", .str "2.0.0"), ("port", .num 4002)]

/-- A structured call carrying `exampleHeaders`. -/
def exampleHeaderFrame : JVal :=
  .obj [("event", .str "p2p.peer.getPeers"), ("data", .obj [("headers", exampleHeaders)])]

/-- A well-shaped `isBlockedByRateLimit` response reporting "not
blocked". -/
def notBlockedResp : Except Unit JVal :=
  .ok (.obj [("data", .obj [("blocked", .bool false)])])

/-- C4's admission attempt: the `/24` of `1.2.3.4` already hosts exactly
`maxSameSubnetPeers = 1` connection (`1.2.3.5`). -/
def hsAtCap : HsInput :=
  { ip := "1.2.3.4", now := 5, ipLastError := fun _ => none, blacklist := none,
    maxSameSubnetPeers := 1, clients := ["1.2.3.5"], rlResp := notBlockedResp }

/-- The same subnet hosting `maxSameSubnetPeers + 1 = 2` connections. -/
def hsOverCap : HsInput := { hsAtCap with clients := ["1.2.3.5", "1.2.3.6"] }

/-- C7's admission attempt: the `isBlockedByRateLimit` round trip
rejects. -/
def hsRlRejected : HsInput :=
  { ip := "9.8.7.6", now := 77, ipLastError := fun _ => none, blacklist := none,
    maxSameSubnetPeers := 5, clients := [], rlResp := .error () }

/-- A well-shaped `req.data` value `{ data: {}, headers: {} }`. -/
def okReqData : Option JVal := some (.obj [("data", .obj []), ("headers", .obj [])])

/-- C1's structured call: the `getRateLimitStatus` round trip rejects. -/
def emitRlRejected : EmitInput :=
  { event := "p2p.peer.getPeers", reqData := okReqData, ip := "1.2.3.4",
    rlResp := .error (), readyResp := .ok .null, forgerResp := .ok .null,
    peerResp := .ok .null, acceptResp := .ok (), schemas := peerSchemas }

/-- A well-shaped `getRateLimitStatus` response reporting "not
exceeded". -/
def notExceededResp : Except Unit JVal :=
  .ok (.obj [("data", .obj [("exceededLimitOnEndpoint", .bool false)])])

/-- A well-shaped `isAppReady` response reporting readiness. -/
def readyResp : Except Unit JVal := .ok (.obj [("data", .obj [("ready", .bool true)])])

/-- A structured call whose `isAppReady` round trip rejects (every other
stage would pass). -/
def emitReadyRejected : EmitInput :=
  { emitRlRejected with rlResp := notExceededResp, readyResp := .error () }

/-- C8's witness call: `p2p.peer.postBlock` from a recognized peer. -/
def emitPostBlockPeer : EmitInput :=
  { emitRlRejected with
      event := "p2p.peer.postBlock"
      rlResp := notExceededResp
      readyResp := readyResp
      peerResp := .ok (.obj [("data", .obj [("isPeerOrForger", .bool true)])]) }

/-- C10's witness call: `p2p.peer.getPeers` with no schema registered,
carrying an arbitrary unvalidated payload. -/
def emitNoSchema : EmitInput :=
  { emitRlRejected with
      rlResp := notExceededResp
      readyResp := readyResp
      reqData := some (.obj [("data", .obj [("junk", .arr [.num 1, .null])]), ("headers", .obj [])]) }

/-- A validator that rejects everything (used to show validation is
skipped). -/
def rejectVal : Validator := fun _ _ => .ok false

/-- C7's witness call: every check passes but the coordinator reports
the application not ready. -/
def notReadyEmit : EmitInput :=
  { emitRlRejected with
      rlResp := notExceededResp
      readyResp := .ok (.obj [("data", .obj [("ready", .bool false)])]) }

/-! ## Helper lemmas -/

lemma finalizeEmit_ne_uncaught (inp : EmitInput) (calls : List String) :
    (finalizeEmit inp calls).1 ≠ EmitOutcome.uncaught := by
  unfold finalizeEmit
  repeat' split
  all_goals simp

lemma emitTry_ne_uncaught (v : Validator) (inp : EmitInput) :
    (emitTry v inp).1 ≠ EmitOutcome.uncaught := by
  unfold emitTry acceptAndFinalize
  dsimp only
  split_ifs <;> (repeat' split) <;>
    first
      | exact finalizeEmit_ne_uncaught _ _
      | simp_all

lemma handleEmit_settled_ne_uncaught (v : Validator) (inp : EmitInput)
    (ex : Option JVal) (b : Bool) (hex : rlExceededField inp.rlResp = .ok ex)
    (hbf : badFormat inp.reqData = .ok b) :
    (handleEmit v inp).1 ≠ EmitOutcome.uncaught := by
  unfold handleEmit
  split
  · simp
  · rw [hex]
    simp only
    split
    · simp
    · rw [hbf]
      cases b
      · simp only
        exact emitTry_ne_uncaught v inp
      · simp

lemma handleHandshake_settled_ne_uncaught (inp : HsInput) (bl : Option JVal)
    (hbl : blockedField inp.rlResp = .ok bl) :
    (handleHandshake inp).1 ≠ HsOutcome.uncaught := by
  unfold handleHandshake
  split
  · simp
  · rw [hbl]
    simp only
    repeat' split
    all_goals simp

lemma violB_eq_false {r : Except Unit Bool} (h : violB r = false) : r = .ok false := by
  cases r with
  | ok b => cases b with
    | false => rfl
    | true => simp [violB] at h
  | error e => simp [violB] at h

lemma onMessage_structured (parse : String → Except Unit JVal)
    (schemas : SchemaTable) (v : Validator) (handlers : List String)
    (st : ConnState) (nowMs : Int) (msg : String) (parsed : JVal)
    (evOpt : Option JVal) (hd : st.disconnected = false)
    (h2 : (msg == "#2") = false) (hlen : ¬ msg.length < 10)
    (hp : parse msg = .ok parsed) (hev : jsProp parsed "event" = .ok evOpt)
    (hnd : optIsStr evOpt "#disconnect" = false)
    (hnh : optIsStr evOpt "#handshake" = false) :
    onMessage parse schemas v handlers st nowMs msg
      = (st, violB (invalidFrame schemas v handlers parsed)) := by
  unfold onMessage
  simp [hd, h2, hlen, hp, hev, hnd, hnh]

lemma invalidFrame_accept_hap (schemas : SchemaTable) (v : Validator)
    (handlers : List String) (parsed : JVal)
    (h : invalidFrame schemas v handlers parsed = .ok false) :
    hasAdditionalProperties schemas v parsed = .ok false := by
  unfold invalidFrame at h
  repeat' split at h
  all_goals simp_all

lemma hap_accept_headersPart (schemas : SchemaTable) (v : Validator)
    (parsed : JVal)
    (h : hasAdditionalProperties schemas v parsed = .ok false) :
    headersPartBad parsed = .ok false := by
  unfold hasAdditionalProperties at h
  repeat' split at h
  all_goals simp_all

lemma headersPartBad_accept (o : JVal) (d : Option JVal) (hOpt : Option JVal)
    (h : headersPartBad o = .ok false) (hd : jsProp o "data" = .ok d)
    (hh : jsPropOpt d "headers" = .ok hOpt) (ht : truthyOpt hOpt = true) :
    headersBad (hOpt.getD .null) = .ok false := by
  unfold headersPartBad at h
  rw [hd] at h
  simp only at h
  rw [hh] at h
  simp only at h
  rw [ht] at h
  simpa using h

lemma lookupField_mem {fs : List (String × JVal)} {k : String} {v : JVal}
    (h : lookupField fs k = some v) : k ∈ fs.map Prod.fst := by
  induction fs with
  | nil => simp [lookupField] at h
  | cons kv rest ih =>
    rw [lookupField] at h
    by_cases hk : kv.1 = k
    · simp [hk]
    · rw [if_neg hk] at h
      simp [ih h]

lemma dataDataBad_indep (schemas : SchemaTable) (v1 v2 : Validator)
    (o : JVal) (ev : List String)
    (hnone : schemaLookup schemas (ev.getD 1 "undefined") (ev.getD 2 "undefined") = .ok none) :
    dataDataBad schemas v1 o ev = dataDataBad schemas v2 o ev := by
  unfold dataDataBad
  cases hjp : jsProp o "data" with
  | error e => rfl
  | ok dOpt =>
    dsimp only
    cases hdd : jsPropOpt dOpt "data" with
    | error e => rfl
    | ok ddOpt =>
      dsimp only
      by_cases ht : truthyOpt ddOpt = true
      · rw [if_pos ht, if_pos ht, hnone]
      · rw [if_neg ht, if_neg ht]

lemma bne_chain_eq_not_beq_chain (k : String) :
    (k != "version" && k != "port" && k != "height" && k != "Content-Type")
      = !(k == "version" || k == "port" || k == "height" || k == "Content-Type") := by
  cases h1 : k == "version" <;> cases h2 : k == "port" <;>
    cases h3 : k == "height" <;> cases h4 : k == "Content-Type" <;>
      simp [bne, h1, h2, h3, h4]

lemma headersBad_obj_iff (hfs : List (String × JVal)) :
    headersBad (.obj hfs) = .ok false ↔ amendedHeadersOk (.obj hfs) = true := by
  unfold headersBad amendedHeadersOk headerTypeBad typedIfTruthy
  dsimp only [objKeys, jsProp]
  by_cases hc : ((((hfs.map Prod.fst).filter fun k =>
      k != "version" && k != "port" && k != "height" && k != "Content-Type").length != 0) = true)
  · rw [if_pos hc]
    constructor
    · intro h
      exact absurd h (by simp)
    · intro h
      exfalso
      have hne : ((hfs.map Prod.fst).filter fun k =>
          k != "version" && k != "port" && k != "height" && k != "Content-Type") ≠ [] := by
        intro hnil
        rw [hnil] at hc
        simp at hc
      obtain ⟨x, hx⟩ := List.exists_mem_of_ne_nil _ hne
      have hxf := List.mem_filter.mp hx
      obtain ⟨kv, hkv, hfst⟩ := List.mem_map.mp hxf.1
      have hallq : (hfs.all fun kv =>
          kv.1 == "version" || kv.1 == "port" || kv.1 == "height" || kv.1 == "Content-Type") = true := by
        simp only [Bool.and_eq_true] at h
        exact h.1.1.1.1
      have hq := List.all_eq_true.mp hallq kv hkv
      have hp : (kv.1 != "version" && kv.1 != "port" && kv.1 != "height" && kv.1 != "Content-Type") = true := by
        rw [hfst]
        exact hxf.2
      rw [bne_chain_eq_not_beq_chain kv.1, hq] at hp
      simp at hp
  · rw [if_neg hc]
    have hall : (hfs.all fun kv =>
        kv.1 == "version" || kv.1 == "port" || kv.1 == "height" || kv.1 == "Content-Type") = true := by
      rw [List.all_eq_true]
      intro kv hkv
      by_contra hqf
      have hqf' : (kv.1 == "version" || kv.1 == "port" || kv.1 == "height" || kv.1 == "Content-Type") = false := by
        cases hvv : (kv.1 == "version" || kv.1 == "port" || kv.1 == "height" || kv.1 == "Content-Type")
        · rfl
        · exact absurd hvv hqf
      have hpx : (kv.1 != "version" && kv.1 != "port" && kv.1 != "height" && kv.1 != "Content-Type") = true := by
        rw [bne_chain_eq_not_beq_chain kv.1, hqf']
        rfl
      have hmem : kv.1 ∈ ((hfs.map Prod.fst).filter fun k =>
          k != "version" && k != "port" && k != "height" && k != "Content-Type") :=
        List.mem_filter.mpr ⟨List.mem_map_of_mem _ hkv, hpx⟩
      have hlen : (((hfs.map Prod.fst).filter fun k =>
          k != "version" && k != "port" && k != "height" && k != "Content-Type").length) ≠ 0 := by
        intro h0
        rw [List.length_eq_zero] at h0
        rw [h0] at hmem
        simp at hmem
      exact hc (by simpa [bne_iff_ne] using hlen)
    rw [hall]
    simp only [Bool.true_and, Except.ok.injEq, bne]
    generalize truthyOpt (lookupField hfs "version") = a1
    generalize (typeofOpt (lookupField hfs "version") == "string") = b1
    generalize truthyOpt (lookupField hfs "port") = a2
    generalize (typeofOpt (lookupField hfs "port") == "number") = b2
    generalize truthyOpt (lookupField hfs "Content-Type") = a3
    generalize (typeofOpt (lookupField hfs "Content-Type") == "string") = b3
    generalize truthyOpt (lookupField hfs "height") = a4
    generalize (typeofOpt (lookupField hfs "height") == "number") = b4
    revert a1 b1 a2 b2 a3 b3 a4 b4
    decide

lemma headersBad_nested_obj (hfs : List (String × JVal)) (k : String)
    (gs : List (String × JVal)) (h : lookupField hfs k = some (.obj gs)) :
    headersBad (.obj hfs) = .ok true := by
  rcases hb : headersBad (.obj hfs) with e | b
  · exfalso
    unfold headersBad headerTypeBad at hb
    dsimp only [objKeys, jsProp] at hb
    split at hb <;> simp at hb
  · cases b with
    | true => rfl
    | false =>
      exfalso
      have ha := (headersBad_obj_iff hfs).mp hb
      unfold amendedHeadersOk at ha
      simp only [Bool.and_eq_true] at ha
      obtain ⟨kv, hkv, hfst⟩ := List.mem_map.mp (lookupField_mem h)
      have hq := List.all_eq_true.mp ha.1.1.1.1 kv hkv
      rw [hfst] at hq
      simp only [Bool.or_eq_true, beq_iff_eq] at hq
      rcases hq with ((rfl | rfl) | rfl) | rfl
      · have := ha.1.1.1.2
        rw [typedIfTruthy, h] at this
        simp [truthyOpt, typeofOpt, JVal.truthy, JVal.typeof] at this
      · have := ha.1.1.2
        rw [typedIfTruthy, h] at this
        simp [truthyOpt, typeofOpt, JVal.truthy, JVal.typeof] at this
      · have := ha.2
        rw [typedIfTruthy, h] at this
        simp [truthyOpt, typeofOpt, JVal.truthy, JVal.typeof] at this
      · have := ha.1.2
        rw [typedIfTruthy, h] at this
        simp [truthyOpt, typeofOpt, JVal.truthy, JVal.typeof] at this

/-! ## Claim theorems -/

/-- Claim C5: an incoming connection whose IP has a recorded violation
less than 60 seconds old is destroyed by the very first admission check,
before any coordinator call is made (no calls issued); if the last
violation is 60 seconds old or older, or absent, the first check passes
and the admission proceeds to the rate-limit round trip. -/
theorem c5_recent_violation_rejected (ip : String) (now : Int) (m : IpMap)
    (bl : Option (List String)) (mx : Int) (cl : List String)
    (rl : Except Unit JVal) (t : Int) :
    (m ip = some t → 0 < t → now - t < 60000 →
      handleHandshake ⟨ip, now, m, bl, mx, cl, rl⟩ = (.destroyed, [])) ∧
    (m ip = some t → 0 < t → 60000 ≤ now - t →
      (handleHandshake ⟨ip, now, m, bl, mx, cl, rl⟩).2
        = ["p2p.internal.isBlockedByRateLimit"]) ∧
    (m ip = none →
      (handleHandshake ⟨ip, now, m, bl, mx, cl, rl⟩).2
        = ["p2p.internal.isBlockedByRateLimit"]) := by
  refine ⟨?_, ?_, ?_⟩
  · intro hm ht hrec
    have hp : penaltyCheck m ip now = true := by
      unfold penaltyCheck
      rw [hm]
      simp only [Bool.and_eq_true, bne_iff_ne, ne_eq, decide_eq_true_eq]
      omega
    simp [handleHandshake, hp]
  · intro hm ht hrec
    have hp : penaltyCheck m ip now = false := by
      unfold penaltyCheck
      rw [hm]
      have hno : ¬ (t > now - 60000) := by omega
      simp [hno]
    simp only [handleHandshake, hp, Bool.false_eq_true, if_false]
    rcases hb : blockedField rl with e | b
    · simp [hb]
    · simp only [hb]
      split_ifs <;> simp
  · intro hm
    have hp : penaltyCheck m ip now = false := by
      simp [penaltyCheck, hm]
    simp only [handleHandshake, hp, Bool.false_eq_true, if_false]
    rcases hb : blockedField rl with e | b
    · simp [hb]
    · simp only [hb]
      split_ifs <;> simp

/-- Witness for C5 at a concrete input: violation recorded 30 seconds
ago, the attempt is destroyed with no coordinator call. -/
theorem c5_witness :
    handleHandshake ⟨"1.2.3.4", 100000,
      (fun i => if i = "1.2.3.4" then some 70000 else none), none, 5, [],
      .ok .null⟩ = (.destroyed, []) :=
  (c5_recent_violation_rejected "1.2.3.4" 100000
      (fun i => if i = "1.2.3.4" then some 70000 else none) none 5 []
      (.ok .null) 70000).1 (by decide) (by decide) (by decide)

/-- Claim C6: immediately after the hourly purge of `ipLastError`, the
penalty admission check passes for every IP at every instant — no
matter how recently the last violation was recorded — and every
admission run on the purged table reaches the coordinator rate-limit
call. -/
theorem c6_purge_clears_penalties (m : IpMap) (ip : String) (now : Int)
    (inp : HsInput) :
    penaltyCheck (purgeIpLastError m) ip now = false ∧
    (handleHandshake { inp with ipLastError := purgeIpLastError m }).2
      = ["p2p.internal.isBlockedByRateLimit"] := by
  constructor
  · rfl
  · have hp : penaltyCheck (purgeIpLastError m) inp.ip inp.now = false := rfl
    simp only [handleHandshake, hp, Bool.false_eq_true, if_false]
    rcases hb : blockedField inp.rlResp with e | b
    · simp [hb]
    · simp only [hb]
      split_ifs <;> simp

/-- Claim C9: once a connection has sent the disconnect-announce frame
(`_disconnected` set), any further frame from it trips
`setErrorForIpAndTerminate` — the violation instant is recorded for the
IP and the socket is terminated — and for the next 60 seconds an
admission attempt from that IP is destroyed before any coordinator
call. -/
theorem c9_frame_after_disconnect_penalized
    (parse : String → Except Unit JVal) (schemas : SchemaTable)
    (v : Validator) (handlers : List String) (st : ConnState) (m : IpMap)
    (ip : String) (now now2 : Int) (msg : String)
    (bl : Option (List String)) (mx : Int) (cl : List String)
    (rl : Except Unit JVal) (hd : st.disconnected = true) (hnow : 0 < now)
    (hwin : now2 - now < 60000) :
    processMessage parse schemas v handlers st m ip now msg
      = (st, setErrorForIpAndTerminate m ip now, true) ∧
    handleHandshake ⟨ip, now2, setErrorForIpAndTerminate m ip now, bl, mx, cl, rl⟩
      = (.destroyed, []) := by
  constructor
  · unfold processMessage onMessage
    simp [hd]
  · have hlook : setErrorForIpAndTerminate m ip now ip = some now := by
      unfold setErrorForIpAndTerminate
      simp
    have hp : penaltyCheck (setErrorForIpAndTerminate m ip now) ip now2 = true := by
      unfold penaltyCheck
      rw [hlook]
      simp only [Bool.and_eq_true, bne_iff_ne, ne_eq, decide_eq_true_eq]
      omega
    simp [handleHandshake, hp]

/-- Witness for C9 at a concrete input: a frame arriving on a
disconnected connection records the violation and the IP is rejected 30
seconds later. -/
theorem c9_witness :
    processMessage (fun _ => .ok .null) peerSchemas okVal getPeersHandlers
        { disconnected := true } (fun _ => none) "5.6.7.8" 1000 "hello"
      = ({ disconnected := true }, setErrorForIpAndTerminate (fun _ => none) "5.6.7.8" 1000, true) ∧
    handleHandshake ⟨"5.6.7.8", 31000, setErrorForIpAndTerminate (fun _ => none) "5.6.7.8" 1000,
        none, 5, [], .ok .null⟩ = (.destroyed, []) :=
  c9_frame_after_disconnect_penalized (fun _ => .ok .null) peerSchemas okVal
    getPeersHandlers { disconnected := true } (fun _ => none) "5.6.7.8" 1000 31000
    "hello" none 5 [] (.ok .null) rfl (by decide) (by decide)

/-- Counterexample for C4: the `/24` of the incoming IP `1.2.3.4`
already hosts exactly `maxSameSubnetPeers = 1` connection, yet the
attempt is *not* rejected — `handleHandshake` calls `next()`. -/
theorem c4_counterexample :
    ((hsAtCap.clients.filter fun c => subnet24 c == subnet24 hsAtCap.ip).length : Int)
        = hsAtCap.maxSameSubnetPeers ∧
    handleHandshake hsAtCap = (.nextCalled, ["p2p.internal.isBlockedByRateLimit"]) := by
  decide

/-- Claim C4 (amended): once the penalty, rate-limit and blacklist
checks pass, the attempt is destroyed exactly when the number of
already-present connections in the incoming IP's `/24` *strictly
exceeds* `maxSameSubnetPeers`; at exactly the maximum (and in
particular for a `/24` hosting at most the maximum, e.g. a fresh
subnet) the attempt passes. -/
theorem c4_subnet_strictly_exceeds (ip : String) (now : Int) (m : IpMap)
    (bl : Option (List String)) (mx : Int) (cl : List String)
    (rl : Except Unit JVal) (b : Option JVal)
    (hpen : penaltyCheck m ip now = false)
    (hbl : blockedField rl = .ok b) (hb : truthyOpt b = false)
    (hblk : (bl.getD []).contains ip = false) :
    (((cl.filter fun c => subnet24 c == subnet24 ip).length : Int) > mx →
      handleHandshake ⟨ip, now, m, bl, mx, cl, rl⟩
        = (.destroyed, ["p2p.internal.isBlockedByRateLimit"])) ∧
    (¬ (((cl.filter fun c => subnet24 c == subnet24 ip).length : Int) > mx) →
      handleHandshake ⟨ip, now, m, bl, mx, cl, rl⟩
        = (.nextCalled, ["p2p.internal.isBlockedByRateLimit"])) := by
  constructor
  · intro hcnt
    simp only [handleHandshake, hpen, Bool.false_eq_true, if_false, hbl]
    simp only [hb, hblk, Bool.or_self, Bool.false_eq_true, if_false]
    rw [if_pos hcnt]
  · intro hcnt
    simp only [handleHandshake, hpen, Bool.false_eq_true, if_false, hbl]
    simp only [hb, hblk, Bool.or_self, Bool.false_eq_true, if_false]
    rw [if_neg hcnt]

/-- Witness for C4 at a concrete input: two connections already in the
`/24` with a maximum of one — the next attempt from that subnet is
destroyed. -/
theorem c4_witness :
    handleHandshake hsOverCap = (.destroyed, ["p2p.internal.isBlockedByRateLimit"]) :=
  (c4_subnet_strictly_exceeds "1.2.3.4" 5 (fun _ => none) none 1
      ["1.2.3.5", "1.2.3.6"] notBlockedResp (some (.bool false))
      (by decide) rfl (by decide) (by decide)).1 (by decide)

/-- Claim C2 (the code violates it): a structured-call frame whose
top-level `cid` is the string `"x"` is *accepted* — no violation is
recorded and the connection is kept — because the `cid` type test of
the invalid-frame condition is conjoined with
`parsed.event === "#disconnect"`, which is unreachable in that branch.
The last two conjuncts exhibit that `cid` is present and not a
number. -/
theorem c2_string_cid_accepted :
    onMessage (fun _ => .ok cidFrame) peerSchemas okVal getPeersHandlers {} 0 rawMsg
      = ({}, false) ∧
    jsProp cidFrame "cid" = .ok (some (.str "x")) ∧
    typeofOpt (some (.str "x")) ≠ "number" :=
  ⟨by decide, rfl, by decide⟩

/-- Counterexample for C3: the frame whose `data.headers` carries
`version: 0` — a present key with a non-string value — is accepted,
because `0` is falsy and the type check is truthiness-guarded. -/
theorem c3_counterexample :
    onMessage (fun _ => .ok falsyHeaderFrame) peerSchemas okVal getPeersHandlers {} 0 rawMsg
      = ({}, false) ∧
    jsProp falsyHeaderFrame "data" = .ok (some (.obj [("headers", headersZero)])) ∧
    claimHeadersOk headersZero = false :=
  ⟨by decide, rfl, by decide⟩

/-- Claim C3 (amended): the headers check accepts exactly when every
key of `data.headers` is one of the four allowed ones and every key
whose value is *truthy* has its stated primitive type (falsy mistyped
values slip through); consequently an accepted structured frame with
truthy headers always satisfies that amended condition, any header key
bound to a nested object (always truthy) forces rejection, and the
spec's example headers are accepted. -/
theorem c3_headers_truthy_guarded :
    (∀ hfs : List (String × JVal),
      headersBad (.obj hfs) = .ok false ↔ amendedHeadersOk (.obj hfs) = true) ∧
    (∀ (parse : String → Except Unit JVal) (schemas : SchemaTable) (v : Validator)
        (handlers : List String) (st st2 : ConnState) (nowMs : Int) (msg : String)
        (parsed : JVal) (evOpt dOpt hOpt : Option JVal),
      st.disconnected = false → (msg == "#2") = false → ¬ msg.length < 10 →
      parse msg = .ok parsed → jsProp parsed "event" = .ok evOpt →
      optIsStr evOpt "#disconnect" = false → optIsStr evOpt "#handshake" = false →
      onMessage parse schemas v handlers st nowMs msg = (st2, false) →
      jsProp parsed "data" = .ok dOpt → jsPropOpt dOpt "headers" = .ok hOpt →
      truthyOpt hOpt = true →
      headersBad (hOpt.getD .null) = .ok false) ∧
    (∀ (hfs : List (String × JVal)) (k : String) (gs : List (String × JVal)),
      lookupField hfs k = some (.obj gs) → headersBad (.obj hfs) = .ok true) ∧
    onMessage (fun _ => .ok exampleHeaderFrame) peerSchemas okVal getPeersHandlers {} 0 rawMsg
      = ({}, false) := by
  refine ⟨headersBad_obj_iff, ?_, headersBad_nested_obj, by decide⟩
  intro parse schemas v handlers st st2 nowMs msg parsed evOpt dOpt hOpt
    hd h2 hlen hp hev hnd hnh hacc hdata hhdr ht
  have hred := onMessage_structured parse schemas v handlers st nowMs msg parsed
    evOpt hd h2 hlen hp hev hnd hnh
  rw [hred] at hacc
  have hsnd : violB (invalidFrame schemas v handlers parsed) = false :=
    congrArg Prod.snd hacc
  have hif := violB_eq_false hsnd
  have hhap := invalidFrame_accept_hap schemas v handlers parsed hif
  have hpart := hap_accept_headersPart schemas v parsed hhap
  exact headersPartBad_accept parsed dOpt hOpt hpart hdata hhdr ht

/-- Witness for C3 at a concrete input: the spec's example headers pass
the code's headers check, via the amended characterization. -/
theorem c3_witness :
    headersBad (.obj [("version", .str "2.0.0"), ("port", .num 4002)]) = .ok false :=
  (c3_headers_truthy_guarded.1 [("version", .str "2.0.0"), ("port", .num 4002)]).mpr
    (by decide)

lemma getD3_0 (a b c d : String) : ([a, b, c] : List String).getD 0 d = a := rfl

lemma getD3_1 (a b c d : String) : ([a, b, c] : List String).getD 1 d = b := rfl

lemma getD3_2 (a b c d : String) : ([a, b, c] : List String).getD 2 d = c := rfl

lemma handleEmit_to_try (v : Validator) (inp : EmitInput) (ex : Option JVal)
    (hlen : inp.event.length ≤ 128)
    (hex : rlExceededField inp.rlResp = .ok ex) (hext : truthyOpt ex = false)
    (hbf : badFormat inp.reqData = .ok false) :
    handleEmit v inp
      = ((emitTry v inp).1, "p2p.internal.getRateLimitStatus" :: (emitTry v inp).2) := by
  unfold handleEmit
  rw [if_neg (by omega : ¬ inp.event.length > 128), hex]
  dsimp only
  rw [hext]
  simp only [Bool.false_eq_true, if_false]
  rw [hbf]
  rfl

lemma finalizeEmit_ok (inp : EmitInput) (calls : List String) (hv : JVal)
    (hh : jsPropOpt inp.reqData "headers" = .ok (some hv)) (hnn : hv ≠ .null) :
    finalizeEmit inp calls = (.nextOk, calls) := by
  unfold finalizeEmit
  rw [hh]
  cases hv
  case null => exact absurd rfl hnn
  all_goals rfl

lemma emitTry_ready_error (v : Validator) (inp : EmitInput) (ver hdl : String)
    (hsplit : splitDot inp.event = ["p2p", ver, hdl])
    (hre : inp.readyResp = .error ()) :
    emitTry v inp = (.caughtTerminated, ["p2p.utils.isAppReady"]) := by
  unfold emitTry
  dsimp only
  rw [hsplit, getD3_0]
  simp only [bne_self_eq_false, Bool.false_eq_true, if_false]
  rw [hre]
  rfl

lemma emitTry_not_ready (v : Validator) (inp : EmitInput) (ver hdl : String)
    (rdy : Option JVal) (hsplit : splitDot inp.event = ["p2p", ver, hdl])
    (hready : readyField inp.readyResp = .ok rdy)
    (hrdy : truthyOpt rdy = false) :
    emitTry v inp = (.notReadyError, ["p2p.utils.isAppReady"]) := by
  unfold emitTry
  dsimp only
  rw [hsplit, getD3_0]
  simp only [bne_self_eq_false, Bool.false_eq_true, if_false]
  rw [hready]
  dsimp only
  rw [hrdy]
  simp only [Bool.not_false, if_pos]

lemma emitTry_peer_priv (v : Validator) (inp : EmitInput) (hdl : String)
    (rdy pof : Option JVal) (tbl : List (String × Schema))
    (hsplit : splitDot inp.event = ["p2p", "peer", hdl])
    (hready : readyField inp.readyResp = .ok rdy)
    (hrdy : truthyOpt rdy = true)
    (hpeer : inp.schemas.lookup "peer" = some tbl)
    (hpriv : (hdl == "postTransactions" || hdl == "postBlock") = true)
    (hpof : peerOrForgerField inp.peerResp = .ok pof) :
    emitTry v inp =
      (if !(truthyOpt pof) then
        ((.terminated : EmitOutcome), ["p2p.utils.isAppReady", "p2p.internal.isPeerOrForger"])
      else
        finalizeEmit inp
          ["p2p.utils.isAppReady", "p2p.internal.isPeerOrForger", "p2p.internal.acceptNewPeer"]) := by
  have hsl : schemaLookup inp.schemas "peer" hdl = .ok (tbl.lookup hdl) := by
    unfold schemaLookup
    rw [hpeer]
  unfold emitTry
  dsimp only
  rw [hsplit, getD3_0, getD3_1, getD3_2]
  simp only [bne_self_eq_false, Bool.false_eq_true, if_false]
  rw [hready]
  dsimp only
  rw [hrdy]
  simp only [Bool.not_true, Bool.false_eq_true, if_false]
  rw [if_neg (by decide : ¬ (("peer" == "internal") = true))]
  rw [if_pos (by decide : (("peer" == "peer") = true))]
  rw [hsl]
  dsimp only
  rw [if_pos hpriv]
  rw [hpof]
  rfl

lemma emitTry_peer_noschema (v : Validator) (inp : EmitInput) (hdl : String)
    (rdy : Option JVal) (tbl : List (String × Schema))
    (hsplit : splitDot inp.event = ["p2p", "peer", hdl])
    (hready : readyField inp.readyResp = .ok rdy)
    (hrdy : truthyOpt rdy = true)
    (hpeer : inp.schemas.lookup "peer" = some tbl)
    (hpriv : (hdl == "postTransactions" || hdl == "postBlock") = false)
    (hnone : tbl.lookup hdl = none) :
    emitTry v inp = finalizeEmit inp ["p2p.utils.isAppReady", "p2p.internal.acceptNewPeer"] := by
  have hsl : schemaLookup inp.schemas "peer" hdl = .ok (tbl.lookup hdl) := by
    unfold schemaLookup
    rw [hpeer]
  unfold emitTry
  dsimp only
  rw [hsplit, getD3_0, getD3_1, getD3_2]
  simp only [bne_self_eq_false, Bool.false_eq_true, if_false]
  rw [hready]
  dsimp only
  rw [hrdy]
  simp only [Bool.not_true, Bool.false_eq_true, if_false]
  rw [if_neg (by decide : ¬ (("peer" == "internal") = true))]
  rw [if_pos (by decide : (("peer" == "peer") = true))]
  rw [hsl]
  dsimp only
  rw [hpriv]
  simp only [Bool.false_eq_true, if_false]
  rw [hnone]
  rfl

/-- Counterexample for C7: when the `isBlockedByRateLimit` round trip of
admission rejects, the outcome is an unhandled rejection — a failure of
the admission stage that neither destroys the raw socket nor lets the
handshake proceed, i.e. a failure that leaves the connection open and is
not the "not ready" response. -/
theorem c7_counterexample :
    handleHandshake hsRlRejected = (.uncaught, ["p2p.internal.isBlockedByRateLimit"]) ∧
    HsOutcome.uncaught.closesConn = false ∧ HsOutcome.uncaught ≠ HsOutcome.destroyed := by
  decide

/-- Claim C7 (amended): a structured call that has passed the length,
rate-limit, envelope-shape and namespace checks and finds the
application not ready receives the structured "not ready" error and the
connection stays open; every *settled* failure outcome other than "not
ready" closes the connection; the only other outcome leaving the
connection open is the unhandled rejection of the pre-try rate-limit
segment, which cannot occur once that segment settles. -/
theorem c7_not_ready_only_open_failure :
    (∀ (v : Validator) (inp : EmitInput) (ex rdy : Option JVal),
      inp.event.length ≤ 128 →
      rlExceededField inp.rlResp = .ok ex → truthyOpt ex = false →
      badFormat inp.reqData = .ok false →
      (∃ ver hdl, splitDot inp.event = ["p2p", ver, hdl]) →
      readyField inp.readyResp = .ok rdy → truthyOpt rdy = false →
      handleEmit v inp
        = (.notReadyError, ["p2p.internal.getRateLimitStatus", "p2p.utils.isAppReady"])
        ∧ EmitOutcome.notReadyError.closesConn = false
        ∧ EmitOutcome.notReadyError.respondsError = true) ∧
    (∀ (v : Validator) (inp : EmitInput),
      (handleEmit v inp).1.closesConn = false → (handleEmit v inp).1 ≠ .nextOk →
      (handleEmit v inp).1 = .notReadyError ∨ (handleEmit v inp).1 = .uncaught) ∧
    (∀ (v : Validator) (inp : EmitInput) (ex : Option JVal) (b : Bool),
      rlExceededField inp.rlResp = .ok ex → badFormat inp.reqData = .ok b →
      (handleEmit v inp).1 ≠ .uncaught) := by
  refine ⟨?_, ?_, ?_⟩
  · intro v inp ex rdy hlen hex hext hbf hsplit hready hrdy
    obtain ⟨ver, hdl, hsplit⟩ := hsplit
    rw [handleEmit_to_try v inp ex hlen hex hext hbf,
      emitTry_not_ready v inp ver hdl rdy hsplit hready hrdy]
    exact ⟨rfl, rfl, rfl⟩
  · intro v inp h1 h2
    rcases h : (handleEmit v inp).1 <;> rw [h] at h1 h2
    · exact absurd h1 (by simp [EmitOutcome.closesConn])
    · exact absurd h1 (by simp [EmitOutcome.closesConn])
    · exact Or.inl rfl
    · exact absurd rfl h2
    · exact Or.inr rfl
  · intro v inp ex b hex hbf
    exact handleEmit_settled_ne_uncaught v inp ex b hex hbf

/-- Witness for C7 at a concrete input: readiness reported false, the
call is answered with the "not ready" error and the connection is not
closed. -/
theorem c7_witness :
    handleEmit okVal notReadyEmit
      = (.notReadyError, ["p2p.internal.getRateLimitStatus", "p2p.utils.isAppReady"])
      ∧ EmitOutcome.notReadyError.closesConn = false
      ∧ EmitOutcome.notReadyError.respondsError = true :=
  c7_not_ready_only_open_failure.1 okVal notReadyEmit (some (.bool false))
    (some (.bool false)) (by decide) rfl (by decide) rfl
    ⟨"peer", "getPeers", by decide⟩ rfl (by decide)

/-- Counterexample for C1: a rejected `getRateLimitStatus` round trip
escapes `handleEmit` as an unhandled rejection (outcome `uncaught`),
contradicting the claim that no coordinator-call failure propagates out
of the authorization stage. -/
theorem c1_counterexample :
    handleEmit okVal emitRlRejected = (.uncaught, ["p2p.internal.getRateLimitStatus"]) ∧
    EmitOutcome.uncaught.closesConn = false := by
  decide

/-- Claim C1 (amended): once the pre-try segment of `handleEmit` (the
`getRateLimitStatus` round trip and the basic-format re-check) settles,
no later coordinator failure escapes — in particular a rejected
`isAppReady` round trip is caught, logged and terminates the connection
— and an admission run whose `isBlockedByRateLimit` response settles
never ends uncaught; but a rejected `isBlockedByRateLimit` round trip
does escape `handleHandshake` as an unhandled rejection. -/
theorem c1_coordinator_failure_boundaries :
    (∀ (v : Validator) (inp : EmitInput) (ex : Option JVal) (b : Bool),
      rlExceededField inp.rlResp = .ok ex → badFormat inp.reqData = .ok b →
      (handleEmit v inp).1 ≠ .uncaught) ∧
    (∀ (v : Validator) (inp : EmitInput) (ex : Option JVal),
      inp.event.length ≤ 128 →
      rlExceededField inp.rlResp = .ok ex → truthyOpt ex = false →
      badFormat inp.reqData = .ok false →
      (∃ ver hdl, splitDot inp.event = ["p2p", ver, hdl]) →
      inp.readyResp = .error () →
      handleEmit v inp
        = (.caughtTerminated, ["p2p.internal.getRateLimitStatus", "p2p.utils.isAppReady"])) ∧
    (∀ (hs : HsInput) (bl : Option JVal),
      blockedField hs.rlResp = .ok bl → (handleHandshake hs).1 ≠ .uncaught) ∧
    (∀ hs : HsInput,
      penaltyCheck hs.ipLastError hs.ip hs.now = false → hs.rlResp = .error () →
      handleHandshake hs = (.uncaught, ["p2p.internal.isBlockedByRateLimit"])) := by
  refine ⟨handleEmit_settled_ne_uncaught, ?_, handleHandshake_settled_ne_uncaught, ?_⟩
  · intro v inp ex hlen hex hext hbf hsplit hre
    obtain ⟨ver, hdl, hsplit⟩ := hsplit
    rw [handleEmit_to_try v inp ex hlen hex hext hbf,
      emitTry_ready_error v inp ver hdl hsplit hre]
  · intro hs hpen hre
    simp only [handleHandshake, hpen, Bool.false_eq_true, if_false, hre]
    rfl

/-- Witness for C1 at a concrete input: a rejected `isAppReady` round
trip inside the try block is caught and the connection terminated. -/
theorem c1_witness :
    handleEmit okVal emitReadyRejected
      = (.caughtTerminated, ["p2p.internal.getRateLimitStatus", "p2p.utils.isAppReady"]) :=
  c1_coordinator_failure_boundaries.2.1 okVal emitReadyRejected
    (some (.bool false)) (by decide) rfl (by decide) rfl
    ⟨"peer", "getPeers", by decide⟩ rfl

/-- Claim C8: a `p2p.peer.postBlock` (or `postTransactions`) call that
has passed the earlier checks consults `isPeerOrForger` for the
caller's IP; if not recognized the connection is terminated, and if
recognized the call proceeds to dispatch (`next()`) with the
`acceptNewPeer` notification fired — for *every* validator, i.e.
without any payload schema validation at this stage. -/
theorem c8_privileged_peer_gate (v : Validator) (inp : EmitInput)
    (ex rdy pof : Option JVal) (hdl : String) (tbl : List (String × Schema))
    (hsplit : splitDot inp.event = ["p2p", "peer", hdl])
    (hpriv : (hdl == "postTransactions" || hdl == "postBlock") = true)
    (hlen : inp.event.length ≤ 128)
    (hex : rlExceededField inp.rlResp = .ok ex) (hext : truthyOpt ex = false)
    (hbf : badFormat inp.reqData = .ok false)
    (hready : readyField inp.readyResp = .ok rdy) (hrdy : truthyOpt rdy = true)
    (hpeer : inp.schemas.lookup "peer" = some tbl)
    (hpof : peerOrForgerField inp.peerResp = .ok pof) :
    (truthyOpt pof = false →
      handleEmit v inp = (.terminated,
        ["p2p.internal.getRateLimitStatus", "p2p.utils.isAppReady",
         "p2p.internal.isPeerOrForger"])) ∧
    (∀ hv : JVal, truthyOpt pof = true →
      jsPropOpt inp.reqData "headers" = .ok (some hv) → hv ≠ .null →
      handleEmit v inp = (.nextOk,
        ["p2p.internal.getRateLimitStatus", "p2p.utils.isAppReady",
         "p2p.internal.isPeerOrForger", "p2p.internal.acceptNewPeer"])) := by
  have hred := handleEmit_to_try v inp ex hlen hex hext hbf
  have htry := emitTry_peer_priv v inp hdl rdy pof tbl hsplit hready hrdy hpeer hpriv hpof
  constructor
  · intro hnp
    rw [hred, htry]
    rw [hnp]
    rfl
  · intro hv hyp hh hnn
    rw [hred, htry]
    rw [hyp]
    simp only [Bool.not_true, Bool.false_eq_true, if_false]
    rw [finalizeEmit_ok inp _ hv hh hnn]

/-- Witness for C8 at a concrete input: `p2p.peer.postBlock` from a
recognized peer proceeds to dispatch with `acceptNewPeer` fired, even
under a validator that rejects every payload. -/
theorem c8_witness :
    handleEmit rejectVal emitPostBlockPeer = (.nextOk,
      ["p2p.internal.getRateLimitStatus", "p2p.utils.isAppReady",
       "p2p.internal.isPeerOrForger", "p2p.internal.acceptNewPeer"]) :=
  (c8_privileged_peer_gate rejectVal emitPostBlockPeer (some (.bool false))
      (some (.bool true)) (some (.bool true)) "postBlock" []
      (by decide) (by decide) (by decide) rfl (by decide) rfl rfl (by decide)
      rfl rfl).2 (.obj []) (by decide) rfl (fun h => JVal.noConfusion h)

/-- Claim C10: for a `p2p.peer.<handler>` call whose handler is neither
`postBlock` nor `postTransactions` and has no schema registered for
`(peer, handler)`, both the envelope validator and the authorization
stage skip payload validation — `hasAdditionalProperties` is unchanged
under any two validators, and `handleEmit` proceeds to dispatch for
*every* validator, the payload unchecked. -/
theorem c10_unregistered_handler_unvalidated :
    (∀ (schemas : SchemaTable) (v1 v2 : Validator) (o : JVal) (s hdl : String)
        (tbl : List (String × Schema)),
      eventString o = .ok s → splitDot s = ["p2p", "peer", hdl] →
      schemas.lookup "peer" = some tbl → tbl.lookup hdl = none →
      hasAdditionalProperties schemas v1 o = hasAdditionalProperties schemas v2 o) ∧
    (∀ (v : Validator) (inp : EmitInput) (ex rdy : Option JVal) (hdl : String)
        (tbl : List (String × Schema)) (hv : JVal),
      splitDot inp.event = ["p2p", "peer", hdl] →
      (hdl == "postTransactions" || hdl == "postBlock") = false →
      inp.event.length ≤ 128 →
      rlExceededField inp.rlResp = .ok ex → truthyOpt ex = false →
      badFormat inp.reqData = .ok false →
      readyField inp.readyResp = .ok rdy → truthyOpt rdy = true →
      inp.schemas.lookup "peer" = some tbl → tbl.lookup hdl = none →
      jsPropOpt inp.reqData "headers" = .ok (some hv) → hv ≠ .null →
      handleEmit v inp = (.nextOk,
        ["p2p.internal.getRateLimitStatus", "p2p.utils.isAppReady",
         "p2p.internal.acceptNewPeer"])) := by
  constructor
  · intro schemas v1 v2 o s hdl tbl hev hsplit hpeer hnone
    have hsl : schemaLookup schemas ((splitDot s).getD 1 "undefined")
        ((splitDot s).getD 2 "undefined") = .ok none := by
      rw [hsplit, getD3_1, getD3_2]
      unfold schemaLookup
      rw [hpeer]
      dsimp only
      rw [hnone]
    unfold hasAdditionalProperties
    cases ho : objKeys o with
    | error e => rfl
    | ok ks =>
      dsimp only
      split
      · rfl
      · rw [hev]
        dsimp only
        cases hsb : structBad o s (splitDot s) with
        | error e => rfl
        | ok b =>
          cases b
          · dsimp only
            rw [dataDataBad_indep schemas v1 v2 o (splitDot s) hsl]
          · rfl
  · intro v inp ex rdy hdl tbl hv hsplit hpriv hlen hex hext hbf hready hrdy
      hpeer hnone hh hnn
    rw [handleEmit_to_try v inp ex hlen hex hext hbf,
      emitTry_peer_noschema v inp hdl rdy tbl hsplit hready hrdy hpeer hpriv hnone,
      finalizeEmit_ok inp _ hv hh hnn]

/-- Witness for C10 at a concrete input: `p2p.peer.getPeers` with no
registered schema and an arbitrary payload proceeds to dispatch even
under a validator that rejects everything. -/
theorem c10_witness :
    handleEmit rejectVal emitNoSchema = (.nextOk,
      ["p2p.internal.getRateLimitStatus", "p2p.utils.isAppReady",
       "p2p.internal.acceptNewPeer"]) :=
  c10_unregistered_handler_unvalidated.2 rejectVal emitNoSchema
    (some (.bool false)) (some (.bool true)) "getPeers" [] (.obj [])
    (by decide) (by decide) (by decide) rfl (by decide) rfl rfl (by decide)
    rfl rfl rfl (fun h => JVal.noConfusion h)
